import Mathlib

set_option maxRecDepth 4000
set_option maxHeartbeats 1000000

/-!
Verification of the SentinEL event-to-action decision pipeline.

Each Python module of the core (perception.py, metrics.py, memory_store.py,
suggestions.py, reasoning.py, agent_brain.py) is shallowly embedded below.
Python floats are modelled as rationals, Python dicts keyed by event id as
association lists with a no-duplicate-key invariant, and the two sources of
randomness in perception.py (random.sample and random.randint) as explicit
parameters constrained by hypotheses stating exactly what those library
calls guarantee.
-/

namespace Sentinel

/-! Python string helpers: lower(), strip(), and the `in` substring test. -/

/-- Python str.lower (ASCII case folding, as Char.toLower provides). -/
def pyToLower (s : String) : String := ⟨s.data.map Char.toLower⟩

/-- Python whitespace test used by str.strip. -/
def isPySpace (c : Char) : Bool :=
  c == ' ' || c == '\t' || c == '\n' || c == '\r' || c == '\x0b' || c == '\x0c'

/-- Python str.strip on a character list: drop whitespace at both ends. -/
def stripChars (l : List Char) : List Char :=
  ((l.dropWhile isPySpace).reverse.dropWhile isPySpace).reverse

/-- Python str.strip. -/
def pyStrip (s : String) : String := ⟨stripChars s.data⟩

/-- Contiguous-substring test on character lists; Python `needle in hay`. -/
def subCheck : (needle hay : List Char) → Bool
  | needle, [] => needle.isEmpty
  | needle, c :: t => needle.isPrefixOf (c :: t) || subCheck needle t

/-- Python `needle in hay` for strings. -/
def strContains (hay needle : String) : Bool := subCheck needle.data hay.data

/-- Python int() on a rational: truncation toward zero. -/
def pyInt (q : ℚ) : ℤ := if 0 ≤ q then ⌊q⌋ else ⌈q⌉

/-- Round-half-to-even on a rational, as Python round() ties are resolved. -/
def roundHalfEven (q : ℚ) : ℤ :=
  let f := ⌊q⌋
  let r := q - (f : ℚ)
  if r < 1/2 then f
  else if 1/2 < r then f + 1
  else if Even f then f else f + 1

/-- Python round(q, 1): one decimal place. -/
def pyRound1 (q : ℚ) : ℚ := (roundHalfEven (10 * q) : ℚ) / 10

/-! Data model (spec section 3), as consumed by perception.py. -/

/-- A shipment snapshot, the fields perception.py reads.  A missing
cargo_type dict entry is modelled as the empty string, matching
shipment.get with default. -/
structure Shipment where
  shipment_id : String
  route_id : String
  current_location : String
  cargo_type : String
  deriving DecidableEq, Repr

/-- A disruption event, the fields the pipeline reads. -/
structure DisruptionEvent where
  event_id : String
  topic : String
  location : String
  severity : Int
  summary : String
  deriving DecidableEq, Repr

/-- An affected-shipment context as built by detect_affected_shipments:
the shipment dict copied and enriched with risk_score, trigger_event_id
and, on the inference path only, inference_note. -/
structure AffectedCtx where
  shipment : Shipment
  risk_score : ℚ
  trigger_event_id : String
  inference_note : Option String
  deriving DecidableEq, Repr

/-! perception.py -/

/-- perception.normalize_location: lowercase plus trim. -/
def normalize_location (loc : String) : String := pyStrip (pyToLower loc)

/-- perception.check_intersection: direct location containment either way,
or the normalized event location occurring inside the normalized route id. -/
def check_intersection (event_location : String) (shp : Shipment) : Bool :=
  let evt_loc := normalize_location event_location
  let shp_loc := normalize_location shp.current_location
  let shp_route := normalize_location shp.route_id
  strContains shp_loc evt_loc || strContains evt_loc shp_loc ||
    strContains shp_route evt_loc

/-- The shipment_multiplier computed inside perception.calculate_risk_score:
1.5 exactly when the cargo type contains the substring Medical. -/
def cargo_multiplier (shp : Shipment) : ℚ :=
  if strContains shp.cargo_type ("Medical") then 3/2 else 1

/-- perception.calculate_risk_score: min(severity * 10 * multiplier, 100). -/
def calculate_risk_score (ev : DisruptionEvent) (shp : Shipment) : ℚ :=
  min ((ev.severity : ℚ) * 10 * cargo_multiplier shp) 100

/-- The context built for a direct geographic match (no inference note). -/
def directMatchCtx (ev : DisruptionEvent) (shp : Shipment) : AffectedCtx :=
  { shipment := shp
    risk_score := calculate_risk_score ev shp
    trigger_event_id := ev.event_id
    inference_note := none }

/-- The first loop of perception.detect_affected_shipments: keep the
shipments passing check_intersection, enriched with their risk score. -/
def directMatches (ev : DisruptionEvent) (pool : List Shipment) : List AffectedCtx :=
  (pool.filter (fun s => check_intersection ev.location s)).map (directMatchCtx ev)

/-- The topic-keyword base risk of the inference fallback. -/
def base_risk (topic : String) : Int :=
  let t := pyToLower topic
  if strContains t ("strike") || strContains t ("blockage") then 75
  else if strContains t ("tariff") then 55
  else 45

/-- The context built on the inference path for one sampled shipment and
one random.randint(-10, 20) draw r. -/
def inferredCtx (ev : DisruptionEvent) (shp : Shipment) (r : Int) : AffectedCtx :=
  { shipment := shp
    risk_score := ((min 100 (base_risk ev.topic + r) : Int) : ℚ)
    trigger_event_id := ev.event_id
    inference_note := some ("Inferred impact from " ++ ev.location) }

/-- perception.detect_affected_shipments.  The two random draws are made
explicit: sample stands for random.sample(active_shipments, min(2, len)),
rs for the per-shipment random.randint(-10, 20) draws; theorems constrain
them through sampleContract and perturbContract below. -/
def detect_affected_shipments (ev : DisruptionEvent) (pool : List Shipment)
    (sample : List Shipment) (rs : List Int) : List AffectedCtx :=
  let affected := directMatches ev pool
  if affected = [] ∧ 5 ≤ ev.severity ∧ pool ≠ [] then
    (sample.zip rs).map (fun p => inferredCtx ev p.1 p.2)
  else affected

/-- What random.sample(pool, min(2, pool.length)) guarantees about its
result: the length, and that every pick comes from the pool. -/
def sampleContract (pool sample : List Shipment) : Prop :=
  sample.length = min 2 pool.length ∧ ∀ s ∈ sample, s ∈ pool

/-- What the random.randint(-10, 20) draws guarantee: one draw per sampled
shipment, each within the requested interval. -/
def perturbContract (sample : List Shipment) (rs : List Int) : Prop :=
  rs.length = sample.length ∧ ∀ r ∈ rs, -10 ≤ r ∧ r ≤ 20

instance : DecidablePred (fun pr : List Shipment × List Shipment => sampleContract pr.1 pr.2) :=
  fun _ => by unfold sampleContract; infer_instance

/-- The risk-score formula as the spec section 4.1 words it: multiplier 1.5
when the cargo type indicates medical or perishable cargo (read
case-insensitively), else 1.0.  Stated only to compare against the code. -/
def spec_cargo_multiplier (shp : Shipment) : ℚ :=
  if strContains (pyToLower shp.cargo_type) ("medical")
      || strContains (pyToLower shp.cargo_type) ("perishable") then 3/2 else 1

/-- The direct-match risk score as the spec section 4.1 words it. -/
def spec_risk_score (ev : DisruptionEvent) (shp : Shipment) : ℚ :=
  min 100 ((ev.severity : ℚ) * 10 * spec_cargo_multiplier shp)

example : strContains ("Route_A_Suez") ("suez") = false := by decide

example : strContains (normalize_location ("Route_A_Suez")) (normalize_location (" Suez ")) = true := by decide

example : calculate_risk_score ⟨"E", "t", "Suez", 5, "s"⟩ ⟨"S", "R", "Suez", "Perishable"⟩ = 50 := by
  have h : strContains ("Perishable") ("Medical") = false := by decide
  norm_num [calculate_risk_score, cargo_multiplier, h]

example : pyInt (21/2) = 10 := by norm_num [pyInt]

example : pyRound1 0 = 0 := by norm_num [pyRound1, roundHalfEven]

/-! metrics.py -/

/-- metrics.MetricEvent. -/
structure MetricEvent where
  event_id : String
  occurred_at : ℚ
  detected_at : ℚ
  action_at : Option ℚ
  days_saved : ℚ
  deriving DecidableEq, Repr

/-- Insertion-ordered dictionary write, keyed by a string: overwriting an
existing key keeps its position (as a Python dict does and as SQLite
INSERT OR REPLACE does up to row order), a new key is appended. -/
def upsertBy {α : Type} (key : α → String) (db : List α) (e : α) : List α :=
  if db.any (fun x => decide (key x = key e)) then
    db.map (fun x => if key x = key e then e else x)
  else db ++ [e]

/-- The no-duplicate-key invariant of a keyed store. -/
def KeysNodup {α : Type} (key : α → String) (db : List α) : Prop :=
  (db.map key).Nodup

/-- metrics.MetricsTracker.track_detection: replaces the whole entry for
event_id; a falsy occurred_at (0) is replaced by the current time, which
also becomes detected_at.  Time is passed explicitly as now. -/
def track_detection (st : List MetricEvent) (now : ℚ) (event_id : String)
    (occurred_at : ℚ) : List MetricEvent :=
  let occ := if occurred_at = 0 then now else occurred_at
  upsertBy (fun e => e.event_id) st
    { event_id := event_id, occurred_at := occ, detected_at := now
      action_at := none, days_saved := 0 }

/-- metrics.MetricsTracker.track_action: only mutates an entry that is
already present (no-op for an unknown event_id). -/
def track_action (st : List MetricEvent) (now : ℚ) (event_id : String)
    (days_saved : ℚ) : List MetricEvent :=
  st.map (fun e =>
    if e.event_id = event_id then
      { e with action_at := some now, days_saved := days_saved }
    else e)

/-- The acted subset: entries whose action_at is set. -/
def actedEvents (st : List MetricEvent) : List MetricEvent :=
  st.filter (fun e => e.action_at.isSome)

/-- The non-negative detection latencies (negative deltas are excluded). -/
def detectionDeltas (st : List MetricEvent) : List ℚ :=
  (st.map (fun e => e.detected_at - e.occurred_at)).filter (fun d => decide (0 ≤ d))

/-- The non-negative action latencies over acted events. -/
def actionDeltas (st : List MetricEvent) : List ℚ :=
  ((actedEvents st).map (fun e => e.action_at.getD 0 - e.detected_at)).filter
    (fun d => decide (0 ≤ d))

/-- The dictionary metrics.MetricsTracker.get_metrics_snapshot returns. -/
structure MetricsSnapshot where
  mttd_seconds : Option ℚ
  mtta_seconds : Option ℚ
  estimated_days_saved : ℚ
  estimated_cost_saved : ℤ
  events_prevented : ℕ
  predicted_delays : ℕ
  events_seen : ℕ
  actions_taken : ℕ
  deriving DecidableEq, Repr

/-- metrics.MetricsTracker.get_metrics_snapshot. -/
def get_metrics_snapshot (st : List MetricEvent) : MetricsSnapshot :=
  let valid_detections := st
  let valid_actions := actedEvents st
  let mttd : Option ℚ :=
    if valid_detections = [] then none
    else
      let deltas := detectionDeltas st
      some (if deltas = [] then 0 else deltas.sum / (deltas.length : ℚ))
  let mtta : Option ℚ :=
    if valid_actions = [] then none
    else
      let deltas := actionDeltas st
      some (if deltas = [] then 0 else deltas.sum / (deltas.length : ℚ))
  let total_days := (valid_actions.map (fun e => e.days_saved)).sum
  let cost_saved := total_days * 50000
  { mttd_seconds := mttd.map pyRound1
    mtta_seconds := mtta.map pyRound1
    estimated_days_saved := pyRound1 total_days
    estimated_cost_saved := pyInt cost_saved
    events_prevented := (valid_actions.filter (fun e => decide (2 < e.days_saved))).length
    predicted_delays := valid_detections.length - valid_actions.length
    events_seen := valid_detections.length
    actions_taken := valid_actions.length }

/-! memory_store.py -/

/-- memory_store.StoredEvent, the audit record. -/
structure StoredEvent where
  event_id : String
  timestamp : ℚ
  location : String
  event_type : String
  severity : ℤ
  action_taken : String
  days_saved : ℚ
  deriving DecidableEq, Repr

/-- memory_store.EventMemory.store_event: INSERT OR REPLACE keyed by the
event_id primary key. -/
def store_event (db : List StoredEvent) (e : StoredEvent) : List StoredEvent :=
  upsertBy (fun x => x.event_id) db e

/-- The ORDER BY timestamp DESC comparison of get_all_events. -/
def tsDesc (a b : StoredEvent) : Prop := b.timestamp ≤ a.timestamp

instance : DecidableRel tsDesc :=
  fun a b => inferInstanceAs (Decidable (b.timestamp ≤ a.timestamp))

instance : IsTotal StoredEvent tsDesc := ⟨fun a b => le_total b.timestamp a.timestamp⟩

instance : IsTrans StoredEvent tsDesc := ⟨fun _ _ _ h1 h2 => le_trans h2 h1⟩

/-- memory_store.EventMemory.get_all_events: SELECT ordered by timestamp
descending, LIMIT rows. -/
def get_all_events (db : List StoredEvent) (limit : ℕ) : List StoredEvent :=
  (List.insertionSort tsDesc db).take limit

/-! suggestions.py -/

/-- One suggestion dictionary. -/
structure Suggestion where
  action : String
  description : String
  confidence : ℚ
  priority : String
  auto_execute : Bool
  deriving DecidableEq, Repr

/-- The list suggestions.generate_suggestions builds before sorting:
high-risk block, medium-risk block, then the event-type blocks. -/
def suggestionPool (event_type : String) (risk_score : ℚ) (location : String) :
    List Suggestion :=
  (if 80 < risk_score then
    [{ action := "REROUTE_SHIPMENT"
       description := "Immediately reroute all shipments passing through " ++ location
       confidence := 19/20, priority := "CRITICAL", auto_execute := true },
     { action := "NOTIFY_STAKEHOLDERS"
       description := "Send emergency alerts to all affected parties"
       confidence := 23/25, priority := "CRITICAL", auto_execute := true }]
   else []) ++
  (if 50 < risk_score then
    [{ action := "PRIORITIZE_CRITICAL"
       description := "Expedite time-sensitive and perishable cargo"
       confidence := 17/20, priority := "HIGH", auto_execute := false },
     { action := "SCHEDULE_ALTERNATIVE"
       description := "Pre-book alternative transport routes"
       confidence := 39/50, priority := "HIGH", auto_execute := false }]
   else []) ++
  (if event_type = "BLOCKAGE" ∨ event_type = "Canal Blockage" then
    [{ action := "ACTIVATE_CAPE_ROUTE"
       description := "Switch to Cape of Good Hope route for Suez-bound cargo"
       confidence := 22/25, priority := "HIGH", auto_execute := decide (85 < risk_score) }]
   else []) ++
  (if event_type = "STRIKE" ∨ event_type = "Port Strike" then
    [{ action := "DIVERT_TO_NEARBY_PORT"
       description := "Redirect vessels to nearest operational port"
       confidence := 41/50, priority := "HIGH", auto_execute := false }]
   else []) ++
  (if event_type = "TARIFF" ∨ event_type = "Trade Tariff" then
    [{ action := "OPTIMIZE_CUSTOMS"
       description := "Pre-clear documentation to minimize delays"
       confidence := 3/4, priority := "MEDIUM", auto_execute := false }]
   else [])

/-- The sort key of generate_suggestions: descending confidence. -/
def confDesc (a b : Suggestion) : Prop := b.confidence ≤ a.confidence

instance : DecidableRel confDesc :=
  fun a b => inferInstanceAs (Decidable (b.confidence ≤ a.confidence))

instance : IsTotal Suggestion confDesc := ⟨fun a b => le_total b.confidence a.confidence⟩

instance : IsTrans Suggestion confDesc := ⟨fun _ _ _ h1 h2 => le_trans h2 h1⟩

/-- suggestions.generate_suggestions: sort by descending confidence, keep
the top five. -/
def generate_suggestions (event_type : String) (risk_score : ℚ) (location : String) :
    List Suggestion :=
  (List.insertionSort confDesc (suggestionPool event_type risk_score location)).take 5

/-- suggestions.should_auto_execute. -/
def should_auto_execute (s : Suggestion) : Bool :=
  s.auto_execute && decide ((9/10 : ℚ) < s.confidence)

/-! reasoning.py -/

/-- One configured LLM client outcome: absent (no API key), a raised
exception carrying a message, or a returned text. -/
def ClientOutcome : Type := Option (Except String String)

/-- reasoning.ReasoningEngine.invoke_with_fallback: try primary, then the
two fallbacks, swallowing every exception; None when everything failed. -/
def invoke_with_fallback (primary fallback1 fallback2 : ClientOutcome) : Option String :=
  match primary with
  | some (Except.ok r) => some r
  | _ =>
    match fallback1 with
    | some (Except.ok r) => some r
    | _ =>
      match fallback2 with
      | some (Except.ok r) => some r
      | _ => none

/-- A collaborator that fails: either not configured or raising. -/
def clientFails (c : ClientOutcome) : Prop :=
  c = none ∨ ∃ msg, c = some (Except.error msg)

/-- The deterministic threshold fallback at the end of
reasoning.ReasoningEngine.recommend_action. -/
def fallback_recommendation (risk_score : ℚ) : String :=
  if 80 < risk_score then "CRITICAL: REROUTE REQUIRED"
  else if 50 < risk_score then "WARNING: ALERT ISSUED"
  else "ADVISORY: PROCEED WITH CAUTION"

/-- reasoning.ReasoningEngine.recommend_action, with the LLM round trip
abstracted into its Option result: a truthy (non-empty) response is
stripped and returned, anything else degrades to the threshold fallback. -/
def recommend_action (resp : Option String) (risk_score : ℚ) : String :=
  match resp with
  | some r => if r = "" then fallback_recommendation risk_score else pyStrip r
  | none => fallback_recommendation risk_score

/-! agent_brain.py, stages DECIDE and ACT -/

/-- One decision dictionary as built by SentinelAgent.decide. -/
structure Decision where
  shipment_id : String
  recommendation : String
  risk : ℚ
  confidence : ℚ
  deriving DecidableEq, Repr

/-- One iteration of the SentinelAgent.decide loop.  The analysis log text
only enters the collaborator prompt, so it is absorbed into resp, the
invoke_with_fallback result for this shipment. -/
def decideOne (resp : Option String) (ctx : AffectedCtx) : Decision :=
  let risk := ctx.risk_score
  { shipment_id := ctx.shipment.shipment_id
    recommendation := recommend_action resp risk
    risk := risk
    confidence := if risk < 90 then 19/20 else 17/20 }

/-- SentinelAgent.decide: one decision per affected shipment, each from its
own collaborator outcome. -/
def decideStage (ctxs : List AffectedCtx) (resps : List (Option String)) : List Decision :=
  (ctxs.zip resps).map (fun p => decideOne p.2 p.1)

/-- An action-executor call dispatched by SentinelAgent.act. -/
inductive ActionCall where
  | email (recipient subject body : String)
  | slack (channel message : String)
  deriving DecidableEq, Repr

/-- The observable effects of the ACT stage: executor calls, audit-store
writes, metrics.track_action calls, and circuit-breaker block notices. -/
structure ActOutcome where
  calls : List ActionCall
  stored : List StoredEvent
  metricActions : List (String × ℚ)
  blocked : List Decision
  deriving DecidableEq, Repr

/-- The safety-gate test at the top of the SentinelAgent.act loop. -/
def confidenceBlocked (dec : Decision) : Bool := decide (dec.confidence < 7/10)

/-- One iteration of the SentinelAgent.act loop for one decision. -/
def actOne (ev : DisruptionEvent) (now : ℚ) (dec : Decision) : ActOutcome :=
  if confidenceBlocked dec then
    { calls := [], stored := [], metricActions := [], blocked := [dec] }
  else if strContains dec.recommendation ("CRITICAL") then
    { calls := [ActionCall.email ("logistics@company.com")
                  ("URGENT: " ++ dec.shipment_id) dec.recommendation]
      stored := [{ event_id := ev.event_id, timestamp := now
                   location := ev.location, event_type := ev.topic
                   severity := pyInt dec.risk, action_taken := "REROUTE"
                   days_saved := 21/5 }]
      metricActions := [(ev.event_id, 21/5)]
      blocked := [] }
  else if strContains dec.recommendation ("WARNING") then
    { calls := [ActionCall.slack ("#alerts") ("Warning: " ++ dec.shipment_id)]
      stored := [{ event_id := ev.event_id, timestamp := now
                   location := ev.location, event_type := ev.topic
                   severity := pyInt dec.risk, action_taken := "ALERT"
                   days_saved := 1/2 }]
      metricActions := [(ev.event_id, 1/2)]
      blocked := [] }
  else
    { calls := [], stored := [], metricActions := [], blocked := [] }

/-- Concatenation of act effects, in loop order. -/
def ActOutcome.append (a b : ActOutcome) : ActOutcome :=
  { calls := a.calls ++ b.calls
    stored := a.stored ++ b.stored
    metricActions := a.metricActions ++ b.metricActions
    blocked := a.blocked ++ b.blocked }

/-- SentinelAgent.act over the whole decision list of a run. -/
def actStage (ev : DisruptionEvent) (now : ℚ) (decs : List Decision) : ActOutcome :=
  decs.foldr (fun d acc => (actOne ev now d).append acc)
    { calls := [], stored := [], metricActions := [], blocked := [] }

/-! Helper lemmas. -/

theorem pyRound1_zero : pyRound1 0 = 0 := by
  norm_num [pyRound1, roundHalfEven]

theorem base_risk_ge (topic : String) : (45 : ℤ) ≤ base_risk topic := by
  simp only [base_risk]
  split_ifs <;> norm_num

theorem base_risk_le (topic : String) : base_risk topic ≤ 75 := by
  simp only [base_risk]
  split_ifs <;> norm_num

section KeyedStore

variable {α : Type} (key : α → String)

theorem keysNodup_upsertBy (db : List α) (e : α) (h : KeysNodup key db) :
    KeysNodup key (upsertBy key db e) := by
  unfold upsertBy
  split
  · next hany =>
    unfold KeysNodup
    rw [List.map_map]
    have hmk : (db.map (key ∘ fun x => if key x = key e then e else x)) = db.map key := by
      refine List.map_congr_left (fun x _ => ?_)
      by_cases hx : key x = key e <;> simp [Function.comp, hx]
    rw [hmk]
    exact h
  · next hany =>
    have hke : key e ∉ db.map key := by
      intro hmem
      obtain ⟨x, hx, hxe⟩ := List.mem_map.1 hmem
      exact hany (List.any_eq_true.2 ⟨x, hx, by simp [hxe]⟩)
    unfold KeysNodup
    rw [List.map_append]
    simp [List.nodup_append, hke]
    exact h

theorem filter_map_replace (e : α) (db : List α) (h : KeysNodup key db) :
    ((db.map fun x => if key x = key e then e else x).filter
        fun x => decide (key x = key e)) =
      if db.any (fun x => decide (key x = key e)) then [e] else [] := by
  induction db with
  | nil => rfl
  | cons a db ih =>
    have hnd : KeysNodup key db := (List.nodup_cons.1 h).2
    have hka : key a ∉ db.map key := (List.nodup_cons.1 h).1
    by_cases hae : key a = key e
    · have hrest : ∀ x ∈ db, ¬key x = key e := by
        intro x hx hxe
        exact hka (hae ▸ hxe ▸ List.mem_map_of_mem key hx)
      have hmap : (db.map fun x => if key x = key e then e else x) = db := by
        calc (db.map fun x => if key x = key e then e else x)
            = db.map (fun x => x) :=
              List.map_congr_left (fun x hx => if_neg (hrest x hx))
          _ = db := List.map_id' db
      have hfil : (db.filter fun x => decide (key x = key e)) = [] :=
        List.filter_eq_nil_iff.mpr (fun x hx => by simpa using hrest x hx)
      simp [hae, hmap, hfil, List.filter_cons]
    · simp only [List.map_cons, List.filter_cons, if_neg hae, List.any_cons]
      simp [hae, ih hnd]

theorem upsertBy_filter (db : List α) (e : α) (h : KeysNodup key db) :
    ((upsertBy key db e).filter fun x => decide (key x = key e)) = [e] := by
  unfold upsertBy
  split
  · next hany => rw [filter_map_replace key e db h, if_pos hany]
  · next hany =>
    have hfil : (db.filter fun x => decide (key x = key e)) = [] := by
      refine List.filter_eq_nil_iff.mpr ?_
      intro x hx hcx
      exact hany (List.any_eq_true.2 ⟨x, hx, by simpa using hcx⟩)
    simp [List.filter_append, hfil]

end KeyedStore

theorem filter_track_action (st : List MetricEvent) (now : ℚ) (id : String)
    (days : ℚ) :
    ((track_action st now id days).filter fun x => decide (x.event_id = id)) =
      (st.filter fun x => decide (x.event_id = id)).map
        (fun e => { e with action_at := some now, days_saved := days }) := by
  induction st with
  | nil => rfl
  | cons a st ih =>
    by_cases ha : a.event_id = id
    · simp only [track_action, List.map_cons, List.filter_cons] at ih ⊢
      simp [ha, ih]
    · simp only [track_action, List.map_cons, List.filter_cons] at ih ⊢
      simp [ha, ih]

theorem track_action_no_detection (st : List MetricEvent) (now : ℚ) (id : String)
    (days : ℚ) (h : ∀ e ∈ st, ¬e.event_id = id) :
    track_action st now id days = st := by
  unfold track_action
  calc (st.map fun e => if e.event_id = id then
          { e with action_at := some now, days_saved := days } else e)
      = st.map (fun e => e) := List.map_congr_left (fun e he => if_neg (h e he))
    _ = st := List.map_id' st

/-! Claim C1. -/

/-- C1: in the ACT stage a StoredEvent is written iff an action-executor
call is dispatched for that decision; a decision with confidence below 0.7
produces neither, and a decision whose recommendation carries neither the
CRITICAL nor the WARNING tag produces neither; the audit writes of a whole
run are exactly the per-decision writes, in order. -/
theorem C1_store_iff_dispatch (ev : DisruptionEvent) (now : ℚ) (dec : Decision)
    (decs : List Decision) :
    ((actOne ev now dec).stored = [] ↔ (actOne ev now dec).calls = []) ∧
    (dec.confidence < 7/10 →
      (actOne ev now dec).stored = [] ∧ (actOne ev now dec).calls = []) ∧
    (strContains dec.recommendation ("CRITICAL") = false →
      strContains dec.recommendation ("WARNING") = false →
      (actOne ev now dec).stored = [] ∧ (actOne ev now dec).calls = []) ∧
    (actStage ev now decs).stored =
      (decs.map (fun d => (actOne ev now d).stored)).flatten := by
  refine ⟨?_, ?_, ?_, ?_⟩
  · unfold actOne
    split_ifs <;> simp
  · intro h
    have hb : confidenceBlocked dec = true := decide_eq_true h
    simp [actOne, hb]
  · intro hc hw
    unfold actOne
    split_ifs <;> simp_all
  · induction decs with
    | nil => rfl
    | cons d ds ih =>
      simp only [actStage, List.foldr_cons, List.map_cons, List.flatten_cons] at ih ⊢
      rw [show ∀ a b : ActOutcome, (a.append b).stored = a.stored ++ b.stored from
            fun a b => rfl,
          ih]

theorem C1_store_iff_dispatch_witness :
    strContains ("ADVISORY: PROCEED WITH CAUTION") ("CRITICAL") = false ∧
    strContains ("ADVISORY: PROCEED WITH CAUTION") ("WARNING") = false ∧
    (actOne ⟨"EV1", "canal-blockage", "Suez", 9, "s"⟩ 0
      ⟨"SH1", "ADVISORY: PROCEED WITH CAUTION", 40, 19/20⟩).stored = [] ∧
    ((1:ℚ)/2 < 7/10) ∧
    (actOne ⟨"EV1", "canal-blockage", "Suez", 9, "s"⟩ 0
      ⟨"SH2", "CRITICAL: REROUTE REQUIRED", 90, 1/2⟩).calls = [] :=
  ⟨by decide, by decide,
   ((C1_store_iff_dispatch ⟨"EV1", "canal-blockage", "Suez", 9, "s"⟩ 0
      ⟨"SH1", "ADVISORY: PROCEED WITH CAUTION", 40, 19/20⟩ []).2.2.1
      (by decide) (by decide)).1,
   by norm_num,
   ((C1_store_iff_dispatch ⟨"EV1", "canal-blockage", "Suez", 9, "s"⟩ 0
      ⟨"SH2", "CRITICAL: REROUTE REQUIRED", 90, 1/2⟩ []).2.1 (by norm_num)).2⟩

/-! Claim C2 (corrected: the code multiplies by 1.5 only when the cargo
type contains the substring Medical; perishable cargo gets 1.0). -/

/-- C2 counterexample: a perishable-cargo shipment that is a direct match
gets risk 50 from the code, while the formula claimed in the spec (1.5 for
medical or perishable cargo) yields 75. -/
theorem C2_counterexample :
    check_intersection ("Suez") ⟨"SH1", "Route-9", "Suez", "Perishable"⟩ = true ∧
    calculate_risk_score ⟨"EV1", "canal-blockage", "Suez", 5, "s"⟩
      ⟨"SH1", "Route-9", "Suez", "Perishable"⟩ = 50 ∧
    spec_risk_score ⟨"EV1", "canal-blockage", "Suez", 5, "s"⟩
      ⟨"SH1", "Route-9", "Suez", "Perishable"⟩ = 75 ∧
    (50 : ℚ) ≠ 75 := by
  refine ⟨by decide, ?_, ?_, by norm_num⟩
  · have h : strContains ("Perishable") ("Medical") = false := by decide
    norm_num [calculate_risk_score, cargo_multiplier, h]
  · have h1 : strContains (pyToLower ("Perishable")) ("medical") = false := by decide
    have h2 : strContains (pyToLower ("Perishable")) ("perishable") = true := by decide
    norm_num [spec_risk_score, spec_cargo_multiplier, h1, h2]

/-- C2 (amended): every direct match is returned with
risk_score = min(100, severity * 10 * m) where the multiplier m is 1.5
exactly when the cargo type contains the substring Medical (case
sensitive), else 1.0. -/
theorem C2_direct_match_risk (ev : DisruptionEvent) (pool sample : List Shipment)
    (rs : List Int) (s : Shipment) (hs : s ∈ pool)
    (hm : check_intersection ev.location s = true) :
    directMatchCtx ev s ∈ detect_affected_shipments ev pool sample rs ∧
    (directMatchCtx ev s).risk_score =
      min 100 ((ev.severity : ℚ) * 10 *
        (if strContains s.cargo_type ("Medical") then 3/2 else 1)) := by
  have hmem : directMatchCtx ev s ∈ directMatches ev pool :=
    List.mem_map_of_mem _ (List.mem_filter.2 ⟨hs, hm⟩)
  constructor
  · simp only [detect_affected_shipments]
    rw [if_neg]
    · exact hmem
    · rintro ⟨h1, -⟩
      rw [h1] at hmem
      exact absurd hmem (List.not_mem_nil _)
  · simp [directMatchCtx, calculate_risk_score, cargo_multiplier, min_comm]

theorem C2_direct_match_risk_witness :
    (⟨"SH1", "Route-9", "Suez", "Medical Supplies"⟩ : Shipment) ∈
      [(⟨"SH1", "Route-9", "Suez", "Medical Supplies"⟩ : Shipment)] ∧
    check_intersection ("Suez") ⟨"SH1", "Route-9", "Suez", "Medical Supplies"⟩ = true ∧
    directMatchCtx ⟨"EV1", "canal-blockage", "Suez", 5, "s"⟩
        ⟨"SH1", "Route-9", "Suez", "Medical Supplies"⟩ ∈
      detect_affected_shipments ⟨"EV1", "canal-blockage", "Suez", 5, "s"⟩
        [⟨"SH1", "Route-9", "Suez", "Medical Supplies"⟩] [] [] :=
  ⟨by decide, by decide,
   (C2_direct_match_risk ⟨"EV1", "canal-blockage", "Suez", 5, "s"⟩
      [⟨"SH1", "Route-9", "Suez", "Medical Supplies"⟩] [] []
      ⟨"SH1", "Route-9", "Suez", "Medical Supplies"⟩
      (by decide) (by decide)).1⟩

/-! Claim C6. -/

/-- C6: the DECIDE stage only ever assigns confidence 0.95 (risk below 90)
or 0.85 (risk at least 90); both clear the 0.7 safety gate, so the ACT
block branch is unreachable for any decision produced by DECIDE. -/
theorem C6_gate_unreachable (ctxs : List AffectedCtx) (resps : List (Option String))
    (d : Decision) (ev : DisruptionEvent) (now : ℚ)
    (hd : d ∈ decideStage ctxs resps) :
    (d.confidence = 19/20 ∨ d.confidence = 17/20) ∧
    (7/10 : ℚ) ≤ d.confidence ∧
    confidenceBlocked d = false ∧
    (actOne ev now d).blocked = [] := by
  obtain ⟨p, hp, rfl⟩ := List.mem_map.1 hd
  have hconf : (decideOne p.2 p.1).confidence =
      if p.1.risk_score < 90 then (19/20 : ℚ) else 17/20 := rfl
  have hge : (7/10 : ℚ) ≤ (decideOne p.2 p.1).confidence := by
    rw [hconf]
    split_ifs <;> norm_num
  have hnb : confidenceBlocked (decideOne p.2 p.1) = false := by
    simp only [confidenceBlocked, decide_eq_false_iff_not, not_lt]
    exact hge
  refine ⟨?_, hge, hnb, ?_⟩
  · rw [hconf]
    split_ifs <;> simp
  · unfold actOne
    rw [if_neg (by simp [hnb])]
    split_ifs <;> rfl

theorem C6_gate_unreachable_witness :
    decideOne none ⟨⟨"SH1", "R1", "Suez", ""⟩, 50, "EV1", none⟩ ∈
      decideStage [⟨⟨"SH1", "R1", "Suez", ""⟩, 50, "EV1", none⟩] [none] ∧
    (7/10 : ℚ) ≤ (decideOne none ⟨⟨"SH1", "R1", "Suez", ""⟩, 50, "EV1", none⟩).confidence ∧
    confidenceBlocked (decideOne none ⟨⟨"SH1", "R1", "Suez", ""⟩, 50, "EV1", none⟩) = false :=
  ⟨List.mem_cons_self _ _,
   (C6_gate_unreachable [⟨⟨"SH1", "R1", "Suez", ""⟩, 50, "EV1", none⟩] [none]
      (decideOne none ⟨⟨"SH1", "R1", "Suez", ""⟩, 50, "EV1", none⟩)
      ⟨"EV1", "t", "Suez", 5, "s"⟩ 0 (List.mem_cons_self _ _)).2.1,
   (C6_gate_unreachable [⟨⟨"SH1", "R1", "Suez", ""⟩, 50, "EV1", none⟩] [none]
      (decideOne none ⟨⟨"SH1", "R1", "Suez", ""⟩, 50, "EV1", none⟩)
      ⟨"EV1", "t", "Suez", 5, "s"⟩ 0 (List.mem_cons_self _ _)).2.2.1⟩

/-! Claim C10 (corrected: a fractional risk score in (10, 11) truncates to
severity 10, which is still inside the 1 to 10 range; the conclusion holds
from risk 11 upward). -/

/-- C10 counterexample: a CRITICAL decision with risk 10.5 (above 10) is
persisted with severity int(10.5) = 10, which lies inside the 1 to 10
severity range of the event data model. -/
theorem C10_counterexample :
    ((actOne ⟨"EV1", "canal-blockage", "Suez", 9, "s"⟩ 0
        ⟨"SH1", "CRITICAL: REROUTE REQUIRED", 21/2, 19/20⟩).stored.map
      (fun se => se.severity)) = [10] ∧
    (10 : ℚ) < 21/2 ∧ (21/2 : ℚ) ≤ 100 ∧ (1 : ℤ) ≤ 10 ∧ (10 : ℤ) ≤ 10 := by
  have hb : confidenceBlocked ⟨"SH1", "CRITICAL: REROUTE REQUIRED", 21/2, 19/20⟩ = false := by
    simp only [confidenceBlocked, decide_eq_false_iff_not, not_lt]
    norm_num
  have hc : strContains ("CRITICAL: REROUTE REQUIRED") ("CRITICAL") = true := by decide
  refine ⟨?_, by norm_num, by norm_num, by norm_num, by norm_num⟩
  simp only [actOne, hb, hc, Bool.false_eq_true, if_false, if_true]
  norm_num [pyInt]

/-- C10 (amended): every StoredEvent the ACT stage writes carries
severity = int(decision risk), the truncated risk score rather than the
1 to 10 event severity; for any decision with risk at least 11 that value
exceeds 10, hence lies outside the 1 to 10 event severity range. -/
theorem C10_stored_severity (ev : DisruptionEvent) (now : ℚ) (dec : Decision)
    (se : StoredEvent) (hse : se ∈ (actOne ev now dec).stored) :
    se.severity = pyInt dec.risk ∧ ((11 : ℚ) ≤ dec.risk → 10 < se.severity) := by
  have hkey : ∀ hse1 : se.severity = pyInt dec.risk,
      (11 : ℚ) ≤ dec.risk → 10 < se.severity := by
    intro hse1 h11
    have h0 : (0 : ℚ) ≤ dec.risk := le_trans (by norm_num) h11
    have hfl : pyInt dec.risk = ⌊dec.risk⌋ := if_pos h0
    have h11' : (11 : ℤ) ≤ ⌊dec.risk⌋ := Int.le_floor.mpr (by exact_mod_cast h11)
    rw [hse1, hfl]
    omega
  unfold actOne at hse
  split_ifs at hse with h1 h2 h3
  · exact absurd hse (List.not_mem_nil _)
  · rw [List.mem_singleton] at hse
    subst hse
    exact ⟨rfl, hkey rfl⟩
  · rw [List.mem_singleton] at hse
    subst hse
    exact ⟨rfl, hkey rfl⟩
  · exact absurd hse (List.not_mem_nil _)

theorem C10_stored_severity_witness :
    (11 : ℚ) ≤ 95 ∧
    10 < (⟨"EV1", 0, "Suez", "canal-blockage", pyInt 95, "REROUTE", 21/5⟩ :
      StoredEvent).severity :=
  ⟨by norm_num,
   (C10_stored_severity ⟨"EV1", "canal-blockage", "Suez", 9, "s"⟩ 0
      ⟨"SH1", "CRITICAL: REROUTE REQUIRED", 95, 19/20⟩
      ⟨"EV1", 0, "Suez", "canal-blockage", pyInt 95, "REROUTE", 21/5⟩
      (by
        have hb : confidenceBlocked
            ⟨"SH1", "CRITICAL: REROUTE REQUIRED", 95, 19/20⟩ = false := by
          simp only [confidenceBlocked, decide_eq_false_iff_not, not_lt]
          norm_num
        have hc : strContains ("CRITICAL: REROUTE REQUIRED") ("CRITICAL") = true := by
          decide
        simp [actOne, hb, hc])).2 (by norm_num)⟩

/-! Claim C3. -/

/-- C3: the inference fallback produces inference-flagged results exactly
when there is no direct match, severity is at least 5 and the pool is
non-empty; below the severity floor with no direct match the result is
empty; when the fallback runs it returns at most 2 shipments, every one
carrying the inference note and a risk of min(100, base + r) for a
perturbation r bounded by 20 in magnitude, with the result inside
[0, 100]. -/
theorem C3_inference_fallback (ev : DisruptionEvent) (pool sample : List Shipment)
    (rs : List Int) (hsam : sampleContract pool sample)
    (hrs : perturbContract sample rs) :
    ((∃ c ∈ detect_affected_shipments ev pool sample rs, c.inference_note ≠ none) ↔
      (directMatches ev pool = [] ∧ 5 ≤ ev.severity ∧ pool ≠ [])) ∧
    (directMatches ev pool = [] → ev.severity < 5 →
      detect_affected_shipments ev pool sample rs = []) ∧
    (directMatches ev pool = [] → 5 ≤ ev.severity → pool ≠ [] →
      detect_affected_shipments ev pool sample rs ≠ [] ∧
      (detect_affected_shipments ev pool sample rs).length ≤ 2 ∧
      ∀ c ∈ detect_affected_shipments ev pool sample rs,
        c.inference_note = some ("Inferred impact from " ++ ev.location) ∧
        ∃ r : ℤ, -20 ≤ r ∧ r ≤ 20 ∧
          c.risk_score = ((min 100 (base_risk ev.topic + r) : ℤ) : ℚ) ∧
          0 ≤ c.risk_score ∧ c.risk_score ≤ 100) := by
  have hdet : detect_affected_shipments ev pool sample rs =
      if directMatches ev pool = [] ∧ 5 ≤ ev.severity ∧ pool ≠ []
      then (sample.zip rs).map (fun p => inferredCtx ev p.1 p.2)
      else directMatches ev pool := rfl
  have hzlen : (sample.zip rs).length = sample.length := by
    rw [List.length_zip sample rs, hrs.1, min_self]
  have hperelem : ∀ c ∈ (sample.zip rs).map (fun p => inferredCtx ev p.1 p.2),
      c.inference_note = some ("Inferred impact from " ++ ev.location) ∧
      ∃ r : ℤ, -20 ≤ r ∧ r ≤ 20 ∧
        c.risk_score = ((min 100 (base_risk ev.topic + r) : ℤ) : ℚ) ∧
        0 ≤ c.risk_score ∧ c.risk_score ≤ 100 := by
    intro c hc
    obtain ⟨⟨s, r⟩, hmem, rfl⟩ := List.mem_map.1 hc
    have hr : -10 ≤ r ∧ r ≤ 20 := hrs.2 r (List.of_mem_zip hmem).2
    have hb45 := base_risk_ge ev.topic
    refine ⟨rfl, r, by omega, hr.2, rfl, ?_, ?_⟩
    · show (0 : ℚ) ≤ ((min 100 (base_risk ev.topic + r) : ℤ) : ℚ)
      have : (0 : ℤ) ≤ min 100 (base_risk ev.topic + r) := by omega
      exact_mod_cast this
    · show ((min 100 (base_risk ev.topic + r) : ℤ) : ℚ) ≤ 100
      have : min 100 (base_risk ev.topic + r) ≤ (100 : ℤ) := by omega
      exact_mod_cast this
  refine ⟨?_, ?_, ?_⟩
  · constructor
    · intro hex
      by_contra hnc
      rw [hdet, if_neg hnc] at hex
      obtain ⟨c, hc, hnote⟩ := hex
      obtain ⟨s, hsf, rfl⟩ := List.mem_map.1 hc
      exact hnote rfl
    · intro hcond
      have hne : (sample.zip rs) ≠ [] := by
        have hp : 1 ≤ pool.length := List.length_pos.2 hcond.2.2
        have : 1 ≤ (sample.zip rs).length := by
          rw [hzlen, hsam.1]
          omega
        exact List.ne_nil_of_length_pos this
      obtain ⟨pr, hpr⟩ := List.exists_mem_of_ne_nil _ hne
      refine ⟨inferredCtx ev pr.1 pr.2, ?_, by simp [inferredCtx]⟩
      rw [hdet, if_pos hcond]
      exact List.mem_map_of_mem _ hpr
  · intro hdm hsev
    rw [hdet, if_neg (fun h => absurd h.2.1 (not_le.2 hsev))]
    exact hdm
  · intro hdm hsev hpool
    have hcond : directMatches ev pool = [] ∧ 5 ≤ ev.severity ∧ pool ≠ [] :=
      ⟨hdm, hsev, hpool⟩
    rw [hdet, if_pos hcond]
    have hp : 1 ≤ pool.length := List.length_pos.2 hpool
    refine ⟨?_, ?_, hperelem⟩
    · apply List.ne_nil_of_length_pos
      rw [List.length_map, hzlen, hsam.1]
      omega
    · rw [List.length_map, hzlen, hsam.1]
      omega

theorem C3_inference_fallback_witness :
    directMatches ⟨"EV2", "port-strike", "Nowhere", 6, "s"⟩ [⟨"SH1", "R1", "Rotterdam", ""⟩] = [] ∧
    (5 : ℤ) ≤ 6 ∧
    (detect_affected_shipments ⟨"EV2", "port-strike", "Nowhere", 6, "s"⟩
        [⟨"SH1", "R1", "Rotterdam", ""⟩] [⟨"SH1", "R1", "Rotterdam", ""⟩] [5]).length ≤ 2 :=
  ⟨by decide, by decide,
   ((C3_inference_fallback ⟨"EV2", "port-strike", "Nowhere", 6, "s"⟩
      [⟨"SH1", "R1", "Rotterdam", ""⟩] [⟨"SH1", "R1", "Rotterdam", ""⟩] [5]
      (by exact ⟨by decide, by decide⟩)
      (by exact ⟨by decide, by decide⟩)).2.2
      (by decide) (by decide) (by decide)).2.1⟩

/-! Claim C4 (corrected: when events are tracked but every delta of the
mean is filtered out as negative, the code reports 0, not null, so zero
can arise from no data). -/

/-- C4 counterexample: one tracked event whose occurrence timestamp lies
in the future of its detection (delta -5) yields MTTD = 0 even though no
zero latency was observed. -/
theorem C4_counterexample :
    (get_metrics_snapshot (track_detection [] 5 ("E1") 10)).mttd_seconds = some 0 ∧
    ((track_detection [] 5 ("E1") 10).map
      (fun e => e.detected_at - e.occurred_at)) = [-5] := by
  have h1 : track_detection [] 5 ("E1") 10 = [⟨"E1", 10, 5, none, 0⟩] := by
    norm_num [track_detection, upsertBy]
  rw [h1]
  constructor
  · have hneg : ¬(0 : ℚ) ≤ 5 - 10 := by norm_num
    simp [get_metrics_snapshot, detectionDeltas, actedEvents, List.filter_cons,
      hneg, pyRound1_zero]
  · norm_num

/-- C4 (amended): MTTD is null exactly when no events are tracked and MTTA
exactly when no tracked event has an action timestamp, and each mean is
only formed over a non-empty delta list (no division by zero); however,
when events are tracked but all deltas are filtered out as negative, the
snapshot reports 0 rather than null, so a reported zero does not imply an
observed zero latency. -/
theorem C4_snapshot_nullity (st : List MetricEvent) :
    ((get_metrics_snapshot st).mttd_seconds = none ↔ st = []) ∧
    ((get_metrics_snapshot st).mtta_seconds = none ↔ actedEvents st = []) ∧
    (st ≠ [] → detectionDeltas st = [] →
      (get_metrics_snapshot st).mttd_seconds = some 0) ∧
    (st ≠ [] → detectionDeltas st ≠ [] →
      (get_metrics_snapshot st).mttd_seconds =
        some (pyRound1 ((detectionDeltas st).sum / ((detectionDeltas st).length : ℚ))) ∧
      (0 : ℚ) < ((detectionDeltas st).length : ℚ)) ∧
    (actedEvents st ≠ [] → actionDeltas st = [] →
      (get_metrics_snapshot st).mtta_seconds = some 0) ∧
    (actedEvents st ≠ [] → actionDeltas st ≠ [] →
      (get_metrics_snapshot st).mtta_seconds =
        some (pyRound1 ((actionDeltas st).sum / ((actionDeltas st).length : ℚ))) ∧
      (0 : ℚ) < ((actionDeltas st).length : ℚ)) := by
  refine ⟨?_, ?_, ?_, ?_, ?_, ?_⟩
  · by_cases hst : st = [] <;> simp [get_metrics_snapshot, hst]
  · by_cases hact : actedEvents st = [] <;> simp [get_metrics_snapshot, hact]
  · intro hst hdel
    simp [get_metrics_snapshot, hst, hdel, pyRound1_zero]
  · intro hst hdel
    constructor
    · simp [get_metrics_snapshot, hst, hdel]
    · exact_mod_cast Nat.cast_pos.2 (List.length_pos.2 hdel)
  · intro hact hdel
    simp [get_metrics_snapshot, hact, hdel, pyRound1_zero]
  · intro hact hdel
    constructor
    · simp [get_metrics_snapshot, hact, hdel]
    · exact_mod_cast Nat.cast_pos.2 (List.length_pos.2 hdel)

theorem C4_snapshot_nullity_witness :
    ([(⟨"E1", 2, 5, none, 0⟩ : MetricEvent)] ≠ []) ∧
    detectionDeltas [⟨"E1", 2, 5, none, 0⟩] ≠ [] ∧
    (get_metrics_snapshot [⟨"E1", 2, 5, none, 0⟩]).mttd_seconds =
      some (pyRound1 ((detectionDeltas [⟨"E1", 2, 5, none, 0⟩]).sum /
        ((detectionDeltas [⟨"E1", 2, 5, none, 0⟩]).length : ℚ))) :=
  ⟨by simp,
   by norm_num [detectionDeltas, List.filter_cons],
   ((C4_snapshot_nullity [⟨"E1", 2, 5, none, 0⟩]).2.2.2.1 (by simp)
      (by norm_num [detectionDeltas, List.filter_cons])).1⟩

/-! Claim C5. -/

/-- C5: when every reasoning collaborator fails, invoke_with_fallback
returns None and recommend_action degrades to the deterministic threshold
fallback (CRITICAL above 80, WARNING above 50, ADVISORY otherwise); the
DECIDE loop still produces one decision per shipment, and a per-shipment
failure only affects that shipment, whose recommendation becomes the
fallback for its own risk score. -/
theorem C5_reasoning_fallback (p f1 f2 : ClientOutcome) (risk : ℚ)
    (ctxs : List AffectedCtx) (resps : List (Option String))
    (hp : clientFails p) (h1 : clientFails f1) (h2 : clientFails f2)
    (hlen : resps.length = ctxs.length) :
    invoke_with_fallback p f1 f2 = none ∧
    recommend_action (invoke_with_fallback p f1 f2) risk =
      fallback_recommendation risk ∧
    (80 < risk → fallback_recommendation risk = "CRITICAL: REROUTE REQUIRED") ∧
    (50 < risk → risk ≤ 80 →
      fallback_recommendation risk = "WARNING: ALERT ISSUED") ∧
    (risk ≤ 50 →
      fallback_recommendation risk = "ADVISORY: PROCEED WITH CAUTION") ∧
    (decideStage ctxs resps).length = ctxs.length ∧
    (∀ pr ∈ ctxs.zip resps, pr.2 = none →
      (decideOne pr.2 pr.1).recommendation =
        fallback_recommendation pr.1.risk_score) := by
  have hnone : invoke_with_fallback p f1 f2 = none := by
    rcases hp with rfl | ⟨m, rfl⟩ <;> rcases h1 with rfl | ⟨m1, rfl⟩ <;>
      rcases h2 with rfl | ⟨m2, rfl⟩ <;> rfl
  refine ⟨hnone, ?_, ?_, ?_, ?_, ?_, ?_⟩
  · rw [hnone]
    rfl
  · intro h
    simp only [fallback_recommendation, if_pos h]
  · intro ha hb
    simp only [fallback_recommendation, if_neg (by linarith : ¬(80:ℚ) < risk), if_pos ha]
  · intro h
    simp only [fallback_recommendation, if_neg (by linarith : ¬(80:ℚ) < risk),
      if_neg (by linarith : ¬(50:ℚ) < risk)]
  · unfold decideStage
    rw [List.length_map, List.length_zip, hlen, min_self]
  · intro pr hpr hnone2
    simp [decideOne, recommend_action, hnone2]

theorem C5_reasoning_fallback_witness :
    invoke_with_fallback (some (Except.error ("boom"))) none none = none ∧
    recommend_action (invoke_with_fallback (some (Except.error ("boom"))) none none) 90 =
      fallback_recommendation 90 ∧
    fallback_recommendation 90 = "CRITICAL: REROUTE REQUIRED" ∧
    (decideStage [⟨⟨"SH1", "R1", "Suez", ""⟩, 90, "EV1", none⟩] [none]).length = 1 :=
  ⟨(C5_reasoning_fallback (some (Except.error ("boom"))) none none 90
      [⟨⟨"SH1", "R1", "Suez", ""⟩, 90, "EV1", none⟩] [none]
      (Or.inr ⟨"boom", rfl⟩) (Or.inl rfl) (Or.inl rfl) rfl).1,
   (C5_reasoning_fallback (some (Except.error ("boom"))) none none 90
      [⟨⟨"SH1", "R1", "Suez", ""⟩, 90, "EV1", none⟩] [none]
      (Or.inr ⟨"boom", rfl⟩) (Or.inl rfl) (Or.inl rfl) rfl).2.1,
   (C5_reasoning_fallback (some (Except.error ("boom"))) none none 90
      [⟨⟨"SH1", "R1", "Suez", ""⟩, 90, "EV1", none⟩] [none]
      (Or.inr ⟨"boom", rfl⟩) (Or.inl rfl) (Or.inl rfl) rfl).2.2.1 (by norm_num),
   (C5_reasoning_fallback (some (Except.error ("boom"))) none none 90
      [⟨⟨"SH1", "R1", "Suez", ""⟩, 90, "EV1", none⟩] [none]
      (Or.inr ⟨"boom", rfl⟩) (Or.inl rfl) (Or.inl rfl) rfl).2.2.2.2.2.1⟩

/-! Claim C7. -/

/-- C7: two track_detection calls for the same event id leave exactly one
entry, whose fields come from the last call; track_action is a no-op for
an id never detected, while for a detected id it sets action_at and
days_saved; and MTTD over a tracker holding only that event is computed
from the single surviving detection. -/
theorem C7_tracker_idempotence (st : List MetricEvent) (id id2 : String)
    (o1 o2 n1 n2 n3 days : ℚ)
    (hwf : KeysNodup (fun e => e.event_id) st)
    (ho2 : ¬o2 = 0)
    (hnd : ∀ e ∈ st, ¬e.event_id = id2)
    (hd : 0 ≤ n2 - o2) :
    ((track_detection (track_detection st n1 id o1) n2 id o2).filter
        (fun e => decide (e.event_id = id))) = [⟨id, o2, n2, none, 0⟩] ∧
    track_action st n3 id2 days = st ∧
    ((track_action (track_detection st n1 id o1) n3 id days).filter
        (fun e => decide (e.event_id = id))) =
      [⟨id, (if o1 = 0 then n1 else o1), n1, some n3, days⟩] ∧
    (get_metrics_snapshot
        (track_detection (track_detection [] n1 id o1) n2 id o2)).mttd_seconds =
      some (pyRound1 (n2 - o2)) := by
  have htd : ∀ (st' : List MetricEvent) (now occ : ℚ),
      track_detection st' now id occ =
        upsertBy (fun e => e.event_id) st'
          ⟨id, (if occ = 0 then now else occ), now, none, 0⟩ := fun _ _ _ => rfl
  refine ⟨?_, track_action_no_detection st n3 id2 days hnd, ?_, ?_⟩
  · have hwf1 : KeysNodup (fun e => e.event_id)
        (track_detection st n1 id o1) := by
      rw [htd]
      exact keysNodup_upsertBy _ st _ hwf
    have := upsertBy_filter (fun e => e.event_id)
      (track_detection st n1 id o1)
      ⟨id, (if o2 = 0 then n2 else o2), n2, none, 0⟩ hwf1
    rw [if_neg ho2] at this
    rw [htd, if_neg ho2]
    exact this
  · rw [htd st n1 o1, filter_track_action]
    rw [upsertBy_filter (fun e => e.event_id) st
      ⟨id, (if o1 = 0 then n1 else o1), n1, none, 0⟩ hwf]
    rfl
  · have hstate : track_detection (track_detection [] n1 id o1) n2 id o2 =
        [⟨id, o2, n2, none, 0⟩] := by
      simp [track_detection, upsertBy, ho2]
    rw [hstate]
    have hne : ([(⟨id, o2, n2, none, 0⟩ : MetricEvent)]) ≠ [] := by simp
    simp [get_metrics_snapshot, detectionDeltas, actedEvents, List.filter_cons, hd]

theorem C7_tracker_idempotence_witness :
    ((track_detection (track_detection [] 4 ("E1") 2) 7 ("E1") 3).filter
        (fun e => decide (e.event_id = "E1"))) = [⟨"E1", 3, 7, none, 0⟩] ∧
    (get_metrics_snapshot
        (track_detection (track_detection [] 4 ("E1") 2) 7 ("E1") 3)).mttd_seconds =
      some (pyRound1 (7 - 3)) :=
  ⟨(C7_tracker_idempotence [] ("E1") ("E9") 2 3 4 7 9 (1/2)
      (by simp [KeysNodup]) (by norm_num) (by simp) (by norm_num)).1,
   (C7_tracker_idempotence [] ("E1") ("E9") 2 3 4 7 9 (1/2)
      (by simp [KeysNodup]) (by norm_num) (by simp) (by norm_num)).2.2.2⟩

/-! Claim C8. -/

/-- C8: writing two StoredEvents with the same event_id leaves exactly one
record for that id, carrying the field values of the later write, and
get_all_events returns records sorted most-recent-first. -/
theorem C8_audit_upsert (db : List StoredEvent) (e1 e2 : StoredEvent) (limit : ℕ)
    (hwf : KeysNodup (fun x => x.event_id) db)
    (hid : e1.event_id = e2.event_id) :
    ((store_event (store_event db e1) e2).filter
        (fun x => decide (x.event_id = e1.event_id))) = [e2] ∧
    List.Sorted tsDesc (get_all_events db limit) := by
  constructor
  · have hwf1 : KeysNodup (fun x => x.event_id) (store_event db e1) :=
      keysNodup_upsertBy _ db e1 hwf
    rw [hid]
    exact upsertBy_filter (fun x => x.event_id) (store_event db e1) e2 hwf1
  · exact List.Pairwise.sublist (List.take_sublist limit _)
      (List.sorted_insertionSort tsDesc db)

theorem C8_audit_upsert_witness :
    ((store_event (store_event []
        ⟨"E1", 1, "Suez", "BLOCKAGE", 9, "REROUTE", 21/5⟩)
        ⟨"E1", 2, "Panama", "STRIKE", 8, "ALERT", 1/2⟩).filter
      (fun x => decide (x.event_id = "E1"))) =
      [⟨"E1", 2, "Panama", "STRIKE", 8, "ALERT", 1/2⟩] ∧
    List.Sorted tsDesc (get_all_events
      [⟨"E1", 1, "Suez", "BLOCKAGE", 9, "REROUTE", 21/5⟩,
       ⟨"E2", 2, "Panama", "STRIKE", 8, "ALERT", 1/2⟩] 5) :=
  ⟨(C8_audit_upsert [] ⟨"E1", 1, "Suez", "BLOCKAGE", 9, "REROUTE", 21/5⟩
      ⟨"E1", 2, "Panama", "STRIKE", 8, "ALERT", 1/2⟩ 5
      (by simp [KeysNodup]) rfl).1,
   (C8_audit_upsert
      [⟨"E1", 1, "Suez", "BLOCKAGE", 9, "REROUTE", 21/5⟩,
       ⟨"E2", 2, "Panama", "STRIKE", 8, "ALERT", 1/2⟩]
      ⟨"E1", 1, "Suez", "BLOCKAGE", 9, "REROUTE", 21/5⟩
      ⟨"E1", 2, "Panama", "STRIKE", 8, "ALERT", 1/2⟩ 5
      (by simp [KeysNodup]) rfl).2⟩

/-! Claim C9. -/

theorem suggestionPool_length_le (et : String) (risk : ℚ) (loc : String) :
    (suggestionPool et risk loc).length ≤ 5 := by
  have hbs : ¬((et = "BLOCKAGE" ∨ et = "Canal Blockage") ∧
      (et = "STRIKE" ∨ et = "Port Strike")) := by
    rintro ⟨(rfl | rfl), (h | h)⟩ <;> simp at h
  have hbt : ¬((et = "BLOCKAGE" ∨ et = "Canal Blockage") ∧
      (et = "TARIFF" ∨ et = "Trade Tariff")) := by
    rintro ⟨(rfl | rfl), (h | h)⟩ <;> simp at h
  have hst : ¬((et = "STRIKE" ∨ et = "Port Strike") ∧
      (et = "TARIFF" ∨ et = "Trade Tariff")) := by
    rintro ⟨(rfl | rfl), (h | h)⟩ <;> simp at h
  simp only [suggestionPool, List.length_append, apply_ite (List.length),
    List.length_cons, List.length_nil, List.length_singleton]
  by_cases hb : et = "BLOCKAGE" ∨ et = "Canal Blockage"
  · have hs : ¬(et = "STRIKE" ∨ et = "Port Strike") := fun h => hbs ⟨hb, h⟩
    have ht : ¬(et = "TARIFF" ∨ et = "Trade Tariff") := fun h => hbt ⟨hb, h⟩
    simp only [hb, hs, ht, if_true, if_false, ite_true, ite_false]
    split_ifs <;> omega
  · by_cases hs : et = "STRIKE" ∨ et = "Port Strike"
    · have ht : ¬(et = "TARIFF" ∨ et = "Trade Tariff") := fun h => hst ⟨hs, h⟩
      simp only [hb, hs, ht, if_true, if_false, ite_true, ite_false]
      split_ifs <;> omega
    · by_cases ht : et = "TARIFF" ∨ et = "Trade Tariff" <;>
        · simp only [hb, hs, ht, if_true, if_false, ite_true, ite_false]
          split_ifs <;> omega

/-- C9: the suggestion ranker returns at most 5 suggestions, sorted by
descending confidence; risk above 80 contributes the auto-executable
critical reroute and stakeholder-notify suggestions, risk above 50 the
non-auto expedite and alternative-booking suggestions; and a suggestion is
auto-execution eligible iff its flag is set and its confidence exceeds
0.9. -/
theorem C9_suggestion_ranker (event_type : String) (risk_score : ℚ)
    (location : String) :
    (generate_suggestions event_type risk_score location).length ≤ 5 ∧
    List.Sorted confDesc (generate_suggestions event_type risk_score location) ∧
    (80 < risk_score →
      (∃ s ∈ generate_suggestions event_type risk_score location,
        s.action = "REROUTE_SHIPMENT" ∧ s.priority = "CRITICAL" ∧
          s.auto_execute = true) ∧
      (∃ s ∈ generate_suggestions event_type risk_score location,
        s.action = "NOTIFY_STAKEHOLDERS" ∧ s.auto_execute = true)) ∧
    (50 < risk_score →
      (∃ s ∈ generate_suggestions event_type risk_score location,
        s.action = "PRIORITIZE_CRITICAL" ∧ s.auto_execute = false) ∧
      (∃ s ∈ generate_suggestions event_type risk_score location,
        s.action = "SCHEDULE_ALTERNATIVE" ∧ s.auto_execute = false)) ∧
    (∀ s : Suggestion, should_auto_execute s = true ↔
      (s.auto_execute = true ∧ (9/10 : ℚ) < s.confidence)) := by
  have hlenpool := suggestionPool_length_le event_type risk_score location
  have hsortlen : (List.insertionSort confDesc
      (suggestionPool event_type risk_score location)).length ≤ 5 := by
    rw [List.length_insertionSort]
    exact hlenpool
  have hgen : generate_suggestions event_type risk_score location =
      List.insertionSort confDesc (suggestionPool event_type risk_score location) := by
    unfold generate_suggestions
    exact List.take_of_length_le hsortlen
  have hmem : ∀ s : Suggestion,
      s ∈ generate_suggestions event_type risk_score location ↔
      s ∈ suggestionPool event_type risk_score location := by
    intro s
    rw [hgen]
    exact List.mem_insertionSort confDesc
  refine ⟨?_, ?_, ?_, ?_, ?_⟩
  · rw [hgen]
    exact hsortlen
  · rw [hgen]
    exact List.sorted_insertionSort confDesc _
  · intro h80
    constructor
    · refine ⟨{ action := "REROUTE_SHIPMENT"
                description := "Immediately reroute all shipments passing through " ++ location
                confidence := 19/20, priority := "CRITICAL", auto_execute := true },
        (hmem _).2 ?_, rfl, rfl, rfl⟩
      simp [suggestionPool, h80]
    · refine ⟨{ action := "NOTIFY_STAKEHOLDERS"
                description := "Send emergency alerts to all affected parties"
                confidence := 23/25, priority := "CRITICAL", auto_execute := true },
        (hmem _).2 ?_, rfl, rfl⟩
      simp [suggestionPool, h80]
  · intro h50
    constructor
    · refine ⟨{ action := "PRIORITIZE_CRITICAL"
                description := "Expedite time-sensitive and perishable cargo"
                confidence := 17/20, priority := "HIGH", auto_execute := false },
        (hmem _).2 ?_, rfl, rfl⟩
      simp [suggestionPool, h50]
    · refine ⟨{ action := "SCHEDULE_ALTERNATIVE"
                description := "Pre-book alternative transport routes"
                confidence := 39/50, priority := "HIGH", auto_execute := false },
        (hmem _).2 ?_, rfl, rfl⟩
      simp [suggestionPool, h50]
  · intro s
    simp [should_auto_execute, Bool.and_eq_true, decide_eq_true_eq]

theorem C9_suggestion_ranker_witness :
    (80 : ℚ) < 90 ∧
    (generate_suggestions ("BLOCKAGE") 90 ("Suez")).length ≤ 5 ∧
    (∃ s ∈ generate_suggestions ("BLOCKAGE") 90 ("Suez"),
      s.action = "REROUTE_SHIPMENT" ∧ s.priority = "CRITICAL" ∧
        s.auto_execute = true) :=
  ⟨by norm_num,
   (C9_suggestion_ranker ("BLOCKAGE") 90 ("Suez")).1,
   ((C9_suggestion_ranker ("BLOCKAGE") 90 ("Suez")).2.2.1 (by norm_num)).1⟩

end Sentinel
